import Mathlib

/-! Verification of the CityFlow storage / export layer.

The development shallowly embeds the storage abstraction of the repository:

* `src/utils/local_file_service.py` — the local JSON-file backend
  (`LocalFileService`): a metrics directory is modelled as an association
  list from filename to parsed file content, file writes replace the file
  with the same name, and the filename-based glob / parse logic of the
  query functions is modelled on the character lists underlying `String`.
* `src/utils/database_factory.py` — backend selection from a filesystem
  probe.
* `src/processors/main.py` (`export_results`) — metric shaping (date
  backfill, zone-fallback synthesis) and the per-type export step.
* `src/upload_to_aws.py` — the manual sync tool's per-file upload and
  batch tally.
-/

namespace CityFlow

/-- Parsed content of a metrics JSON file.  Each field models one top-level
key of the JSON object written by `LocalFileService.save_metrics`
(`metric_type`, `date`, `timestamp`, `metrics`); `none` models an absent
key, so arbitrary on-disk JSON objects (not only ones produced by
`save_metrics`) are representable.  The metrics payload itself is an
opaque type `α`. -/
structure FileData (α : Type) where
  metric_type : Option String := none
  date : Option String := none
  timestamp : Option String := none
  metrics : Option α := none
deriving DecidableEq

/-- A directory of JSON files: an association of filename to parsed
content.  A real directory holds at most one file per name; `writeFile`
maintains that invariant. -/
abbrev Dir (α : Type) := List (String × FileData α)

/-- Writing a file: the new content replaces any existing file with the
same name (filesystem overwrite semantics of `open(path, 'w')`). -/
def writeFile (dir : Dir α) (name : String) (content : FileData α) : Dir α :=
  (name, content) :: dir.filter (fun p => !(p.1 == name))

/-- Reading a file by name: `none` when no such file exists. -/
def readFile (dir : Dir α) (name : String) : Option (FileData α) :=
  dir.lookup name

/-- Model of `LocalFileService._get_metrics_path`: the metrics file for
`(data_type, date)` is named `f"{data_type}_metrics_{date}.json"`. -/
def metricsFileName (data_type date : String) : String :=
  data_type ++ "_metrics_" ++ date ++ ".json"

/-- Model of `LocalFileService.save_metrics`: writes
`{"metric_type": data_type, "date": date, "timestamp": now, "metrics": metrics}`
to the metrics file for `(data_type, date)`.  The wall-clock timestamp is
passed in as `ts`. -/
def save_metrics (dir : Dir α) (metrics : α) (data_type date ts : String) : Dir α :=
  writeFile dir (metricsFileName data_type date)
    { metric_type := some data_type, date := some date,
      timestamp := some ts, metrics := some metrics }

/-- Model of `LocalFileService.load_metrics`: returns `data.get("metrics")` from the
metrics file for `(data_type, date)`, or `None` when the file does not
exist. -/
def load_metrics (dir : Dir α) (data_type date : String) : Option α :=
  match readFile dir (metricsFileName data_type date) with
  | none => none
  | some data => data.metrics

/-- Parsed content of a report JSON file, written by
`LocalFileService.save_report` (`report_id`, `date`, `timestamp`,
`report`). -/
structure ReportData (α : Type) where
  report_id : Option String := none
  date : Option String := none
  timestamp : Option String := none
  report : Option α := none
deriving DecidableEq

/-- A reports directory. -/
abbrev RDir (α : Type) := List (String × ReportData α)

/-- Writing a report file, with the same overwrite semantics. -/
def writeReportFile (dir : RDir α) (name : String) (content : ReportData α) : RDir α :=
  (name, content) :: dir.filter (fun p => !(p.1 == name))

/-- Model of `LocalFileService._get_report_path`: `f"daily_report_{date}.json"`. -/
def reportFileName (date : String) : String :=
  "daily_report_" ++ date ++ ".json"

/-- Model of `LocalFileService.save_report`. -/
def save_report (dir : RDir α) (report : α) (date ts : String) : RDir α :=
  writeReportFile dir (reportFileName date)
    { report_id := some ("daily_report_" ++ date), date := some date,
      timestamp := some ts, report := some report }

/-- Model of `LocalFileService.load_report`: returns `data.get("report")` from the
report file for `date`, or `None` when the file does not exist. -/
def load_report (dir : RDir α) (date : String) : Option α :=
  match dir.lookup (reportFileName date) with
  | none => none
  | some data => data.report

/-! Backend selection (`src/utils/database_factory.py`) -/
/-- The kind of storage service constructed by the factory. -/
inductive ServiceKind where
  | mongodb
  | localFiles
deriving DecidableEq

/-- The string name the factory uses for each service kind. -/
def serviceKindName : ServiceKind → String
  | .mongodb => "mongodb"
  | .localFiles => "local_files"

/-- Model of `get_database_type`: one filesystem probe — `bucketExists` models
`Path("bucket-cityflow-paris-s3-raw").exists()`; returns `"local_files"`
when the sentinel is absent and `"mongodb"` when it is present. -/
def get_database_type (bucketExists : Bool) : String :=
  if !bucketExists then ("local_files") else ("mongodb")

/-- Model of `get_database_service`: recomputes the same probe, then constructs the
matching service.  `pymongoAvailable` / `localAvailable` model whether the
`utils.mongodb_service` / `utils.local_file_service` imports succeed; an
`ImportError` is re-raised, modelled as `Except.error`. -/
def get_database_service (bucketExists pymongoAvailable localAvailable : Bool) :
    Except String ServiceKind :=
  let db_type := if !bucketExists then ("local_files") else ("mongodb")
  if db_type = "mongodb" then
    if pymongoAvailable then .ok .mongodb else .error ("ImportError: pymongo")
  else if db_type = "local_files" then
    if localAvailable then .ok .localFiles else .error ("ImportError: local_file_service")
  else .error ("unknown database type")

/-! Metric shaping (`export_results` in `src/processors/main.py`) -/
/-- A nested indicator record (one element of `indicators["metrics"]`,
`top_10_troncons`, `top_10_zones_congestionnees` or `alertes_congestion`).
Only the keys the shaping code touches are modelled individually; `none`
models an absent key.  `payload` stands for all remaining fields of the
record. -/
structure NRec where
  date : Option String := none
  zone_fallback : Option String := none
  arrondissement : Option String := none
  payload : Nat := 0
deriving DecidableEq

/-- Python truthiness of an optional string value: an absent key or an
empty string is falsy. -/
def falsyStr : Option String → Bool
  | none => true
  | some s => s = ""

/-- The date backfill applied to each record:
`if "date" in metric and metric["date"] == "": metric["date"] = date`. -/
def fillDate (date : String) (r : NRec) : NRec :=
  if r.date = some ("") then { r with date := some date } else r

/-- The shaping of one congestion-zone record: date backfill followed by
`zone_fallback` synthesis
(`if "zone_fallback" not in zone or not zone.get("zone_fallback")`). -/
def shapeZone (date : String) (z : NRec) : NRec :=
  let z1 := fillDate date z
  if falsyStr z1.zone_fallback then
    let arr := z1.arrondissement.getD ("Unknown")
    if arr ≠ "Unknown" then { z1 with zone_fallback := some ("Arrondissement " ++ arr) }
    else { z1 with zone_fallback := some ("Unknown") }
  else z1

/-- The indicator mapping of one data type.  The four sub-collections the
shaping loop touches are modelled individually (`none` models an absent
key); `payload` stands for every other indicator entry. -/
structure Indicators where
  metrics : Option (List NRec) := none
  top_10_troncons : Option (List NRec) := none
  top_10_zones_congestionnees : Option (List NRec) := none
  alertes_congestion : Option (List NRec) := none
  payload : Nat := 0
deriving DecidableEq

/-- The in-place shaping pass of `export_results` (lines 362–396) as a
pure transform on one indicator mapping: date backfill on `metrics`,
`top_10_troncons` and `alertes_congestion`, date backfill plus
zone-fallback synthesis on `top_10_zones_congestionnees`. -/
def shapeIndicators (date : String) (ind : Indicators) : Indicators :=
  { ind with
    metrics := ind.metrics.map (List.map (fillDate date)),
    top_10_troncons := ind.top_10_troncons.map (List.map (fillDate date)),
    top_10_zones_congestionnees :=
      ind.top_10_zones_congestionnees.map (List.map (shapeZone date)),
    alertes_congestion := ind.alertes_congestion.map (List.map (fillDate date)) }

/-- The pointwise date-backfill contract between an original record and
its shaped version. -/
def DateShaped (d : String) (r r' : NRec) : Prop :=
  r'.date = if r.date = some ("") then some d else r.date

/-! The per-type export step (`export_results`, lines 408–451) -/
/-- The result of one data type's processing, as consumed by
`export_results`: the `success` flag and the (possibly absent or empty,
modelled as `none`) `indicators` mapping. -/
structure ProcResult where
  success : Bool := false
  indicators : Option Indicators := none
deriving DecidableEq

/-- The observable writes of one iteration of the export loop: the payload
sent to the selected backend (if any) and the `(path, payload)` written to
the local backup file (if any). -/
structure ExportAction where
  dbWrite : Option Indicators := none
  localWrite : Option (String × Indicators) := none
deriving DecidableEq

/-- One iteration of the export loop of `export_results` for a single
`(data_type, result)` pair, after the shaping pass.

Modelled from the spec: `should_optimize_for_mongodb` and
`optimize_metrics_for_storage` live in `utils.metrics_optimizer`, which is
not among the provided sources; §4.4 of the spec fixes only their
signatures and leaves the trimming policy open, so they are taken as
arbitrary parameters `shouldOpt` / `optimize` and the export step is
settled for every such pair.  `save_json` (also absent, from
`processors.utils.file_utils`) writes its payload to the given path,
recorded in `localWrite`.  `dbPresent` models `db_service` being non-None,
`awsExecEnv` models `os.getenv("AWS_EXECUTION_ENV")` being set. -/
def exportOne (shouldOpt : String → Indicators → Bool)
    (optimize : String → Indicators → Indicators)
    (dbPresent awsExecEnv : Bool) (data_type date : String)
    (result : ProcResult) : ExportAction :=
  if result.success then
    match result.indicators with
    | some ind =>
        let dbWrite :=
          if dbPresent && shouldOpt data_type ind then some (optimize data_type ind)
          else if dbPresent then some ind
          else none
        let localWrite :=
          if !awsExecEnv then some (metricsFileName data_type date, ind) else none
        { dbWrite := dbWrite, localWrite := localWrite }
    | none => {}
  else {}

/-! The manual sync tool (`src/upload_to_aws.py`) -/
/-- Parsed content of a candidate metrics upload file.  The metrics value
is modelled as a JSON object (list of key/value entries) so that Python's
truthiness (`not metrics` for an empty dict) is expressible. -/
structure UploadFile where
  metric_type : Option String := none
  date : Option String := none
  timestamp : Option String := none
  metrics : Option (List (String × Nat)) := none
deriving DecidableEq

/-- Python truthiness of the optional metrics mapping: absent or empty is
falsy. -/
def falsyMetrics : Option (List (String × Nat)) → Bool
  | none => true
  | some l => l.isEmpty

/-- The item `AWSUploader.upload_metrics_file` puts into the DynamoDB
metrics table. -/
structure DynamoItem where
  metric_type : String
  date : String
  timestamp : String
  metrics : List (String × Nat)
  ttl : Nat
deriving DecidableEq

/-- A candidate file is malformed when a required field (`metric_type`,
`date` or `metrics`) is missing or falsy —
`if not metric_type or not date or not metrics`. -/
def malformedUpload (f : UploadFile) : Bool :=
  falsyStr f.metric_type || falsyStr f.date || falsyMetrics f.metrics

/-- Model of `AWSUploader.upload_metrics_file`: a malformed candidate is reported
as `False` (skipped); otherwise the DynamoDB item is built and put.
`putOk` models whether `put_item` succeeds (a raised `ClientError` is
caught and reported as `False`); `now` / `nowEpoch` model the wall
clock. -/
def upload_metrics_file (putOk : DynamoItem → Bool) (now : String)
    (nowEpoch : Nat) (f : UploadFile) : Bool :=
  if malformedUpload f then false
  else
    putOk { metric_type := f.metric_type.getD (""), date := f.date.getD (""),
            timestamp := f.timestamp.getD now, metrics := f.metrics.getD [],
            ttl := nowEpoch + 365 * 24 * 3600 }

/-- Model of `AWSUploader.upload_all_metrics`: fold over the candidate files (the
sorted glob of the metrics directory), tallying `(success, failed)`. -/
def upload_all_metrics (putOk : DynamoItem → Bool) (now : String)
    (nowEpoch : Nat) (files : List UploadFile) : Nat × Nat :=
  files.foldl
    (fun acc f =>
      if upload_metrics_file putOk now nowEpoch f then (acc.1 + 1, acc.2)
      else (acc.1, acc.2 + 1))
    (0, 0)

/-! Filename parsing and glob matching
(`LocalFileService.query_metrics_by_date_range` / `list_available_dates`) -/
/-- Python `str.split(sep)` for a one-character separator, modelled on the
character list underlying the string (`"a__b".split('_') == ["a", "", "b"]`). -/
def pySplit (sep : Char) (s : String) : List String :=
  (s.data.splitOnP (fun c => c == sep)).map List.asString

/-- Model of `Path(...).stem` for a `*.json` filename: the 5-character `".json"`
extension is removed.  The query functions apply it only to glob-matched
filenames, which end in `".json"`; there the last dot is the extension
dot, so dropping the last 5 characters is exactly `stem`. -/
def stemOf (f : String) : String :=
  List.asString (f.data.take (f.data.length - 5))

/-- Model of `metrics_dir.glob(f"{data_type}_metrics_*.json")` applied to one
filename: a match iff the filename is
`data_type ++ "_metrics_" ++ mid ++ ".json"` for some (possibly empty)
`mid`, i.e. it carries the fixed prefix and the fixed suffix without
overlap. -/
def globMetricsMatch (data_type f : String) : Bool :=
  let pre := (data_type ++ "_metrics_").data
  pre.isPrefixOf f.data && ".json".data.isSuffixOf f.data
    && decide (pre.length + 5 ≤ f.data.length)

/-- The date extraction shared by both query functions:
`parts = stem.split('_'); if len(parts) >= 3: file_date = parts[-1]`
(`none` models the skip when the guard fails). -/
def parseFileDate (f : String) : Option String :=
  let parts := pySplit '_' (stemOf f)
  if 3 ≤ parts.length then some (parts.getLastD ("")) else none

/-! Range query and date listing -/
/-- One entry of the result of `query_metrics_by_date_range`:
`{"date": data.get("date", file_date), "metrics": data.get("metrics")}`. -/
structure QueryEntry (α : Type) where
  date : String
  metrics : Option α
deriving DecidableEq

instance : IsTotal (QueryEntry α) (fun a b => a.date ≤ b.date) :=
  ⟨fun a b => le_total a.date b.date⟩

instance : IsTrans (QueryEntry α) (fun a b => a.date ≤ b.date) :=
  ⟨fun _ _ _ h h' => le_trans h h'⟩

/-- Model of `results.sort(key=lambda x: x.get("date", ""))`: Python's ascending
stable sort on the date key (every constructed entry carries its date
key), modelled by stable insertion sort over the lexicographic string
order. -/
def sortEntries (l : List (QueryEntry α)) : List (QueryEntry α) :=
  l.insertionSort (fun a b => a.date ≤ b.date)

/-- The body of the per-file loop of `query_metrics_by_date_range`: glob
match, filename-date parse under the `len(parts) >= 3` guard, range check
`start_date <= file_date <= end_date` on the filename date, and the entry
construction from the stored record. -/
def queryStep (data_type start_date end_date : String) (p : String × FileData α) :
    Option (QueryEntry α) :=
  if globMetricsMatch data_type p.1 then
    match parseFileDate p.1 with
    | some file_date =>
        if start_date ≤ file_date ∧ file_date ≤ end_date then
          some { date := p.2.date.getD file_date, metrics := p.2.metrics }
        else none
    | none => none
  else none

/-- Model of `LocalFileService.query_metrics_by_date_range`: collect the matching
entries, then sort ascending by the entry date. -/
def query_metrics_by_date_range (dir : Dir α) (data_type start_date end_date : String) :
    List (QueryEntry α) :=
  sortEntries (dir.filterMap (queryStep data_type start_date end_date))

/-- Model of `LocalFileService.list_available_dates`: the parsed filename dates of
all glob-matched metrics files, sorted ascending. -/
def list_available_dates (dir : Dir α) (data_type : String) : List String :=
  (dir.filterMap (fun p =>
    if globMetricsMatch data_type p.1 then parseFileDate p.1 else none)).insertionSort
    (fun a b : String => a ≤ b)

/-- A directory entry produced by `save_metrics` for an underscore-free
data type and date: the filename is `{t}_metrics_{d}.json` and the stored
`date` key equals `d`.  The repository's data types (`bikes`, `traffic`,
`weather`, `comptages`, `chantiers`, `referentiel`) and its `YYYY-MM-DD`
dates contain no underscore. -/
def SavedShape (p : String × FileData α) : Prop :=
  ∃ t d, p.1 = metricsFileName t d ∧ p.2.date = some d
    ∧ '_' ∉ t.data ∧ '_' ∉ d.data

theorem lookup_writeFile_self (dir : Dir α) (name : String) (c : FileData α) :
    (writeFile dir name c).lookup name = some c := by
  simp [writeFile, List.lookup]

theorem lookup_filter_ne {β : Type} (dir : List (String × β)) (name name' : String)
    (h : name' ≠ name) :
    (dir.filter (fun p => !(p.1 == name))).lookup name' = dir.lookup name' := by
  induction dir with
  | nil => rfl
  | cons p rest ih =>
    obtain ⟨k, v⟩ := p
    rw [List.filter_cons]
    by_cases hk : k = name
    · have h1 : ((k, v).1 == name) = true := by simpa using hk
      have h2 : (name' == k) = false := beq_false_of_ne (fun e => h (e.trans hk))
      rw [h1, List.lookup_cons, h2]
      simpa using ih
    · have h1 : ((k, v).1 == name) = false := by simpa using hk
      rw [h1]
      simp only [Bool.not_false, if_true, List.lookup_cons]
      cases hq : (name' == k) <;> simp [hq, ih]

theorem lookup_writeFile_ne (dir : Dir α) (name name' : String) (c : FileData α)
    (h : name' ≠ name) : (writeFile dir name c).lookup name' = dir.lookup name' := by
  rw [writeFile, List.lookup_cons, beq_false_of_ne h]
  simpa using lookup_filter_ne dir name name' h

/-- C1: on the local-file backend, `load_metrics` after `save_metrics`
returns exactly the saved metrics; a second `save_metrics` with the same
`(data_type, date)` key replaces the prior record, so `load_metrics`
returns the metrics of the latest write and the directory holds exactly
one file for that key. -/
theorem save_metrics_roundtrip_overwrite (dir : Dir α) (m m₁ m₂ : α)
    (t d ts ts₁ ts₂ : String) :
    load_metrics (save_metrics dir m t d ts) t d = some m
    ∧ load_metrics (save_metrics (save_metrics dir m₁ t d ts₁) m₂ t d ts₂) t d = some m₂
    ∧ (save_metrics (save_metrics dir m₁ t d ts₁) m₂ t d ts₂).countP
        (fun p => p.1 == metricsFileName t d) = 1 := by
  refine ⟨?_, ?_, ?_⟩
  · simp [load_metrics, readFile, save_metrics, lookup_writeFile_self]
  · simp [load_metrics, readFile, save_metrics, lookup_writeFile_self]
  · simp only [save_metrics, writeFile]
    rw [List.countP_cons_of_pos _ _ (by simp)]
    have hz : ∀ (l : Dir α),
        (l.filter (fun p => !(p.1 == metricsFileName t d))).countP
          (fun p => p.1 == metricsFileName t d) = 0 := by
      intro l
      rw [List.countP_filter]
      apply List.countP_eq_zero.mpr
      intro p _
      cases hp : (p.1 == metricsFileName t d) <;> simp [hp]
    rw [List.filter_cons_of_neg (by simp), hz]

/-- C8: for a `(data_type, date)` key with no stored metrics file,
`load_metrics` returns the explicit not-found signal `none` (and likewise
`load_report` for a date with no stored report file); both functions are
total, so no exception can escape for a missing key. -/
theorem load_missing_returns_none (dir : Dir α) (rdir : RDir α) (t d : String)
    (hm : dir.lookup (metricsFileName t d) = none)
    (hr : rdir.lookup (reportFileName d) = none) :
    load_metrics dir t d = none ∧ load_report rdir d = none := by
  constructor
  · simp [load_metrics, readFile, hm]
  · simp [load_report, hr]

/-- Witness for C8 at a concrete input: the empty directories hold no file
for `("bikes", "2025-11-04")`. -/
theorem load_missing_returns_none_witness :
    load_metrics ([] : Dir Nat) "bikes" "2025-11-04" = none
    ∧ load_report ([] : RDir Nat) "2025-11-04" = none :=
  load_missing_returns_none [] [] "bikes" "2025-11-04" rfl rfl

/-- C3: backend selection is deterministic and consistent — for a fixed
filesystem state, any two successful invocations of the factory construct
the same backend kind (whatever the library-availability environment),
`get_database_type` returns exactly the name of the kind the factory
constructs, and it equals `"mongodb"` when the sentinel exists and
`"local_files"` otherwise. -/
theorem backend_selection_deterministic (b pa la pa' la' : Bool) (k k' : ServiceKind)
    (h : get_database_service b pa la = .ok k)
    (h' : get_database_service b pa' la' = .ok k') :
    k = k'
    ∧ serviceKindName k = get_database_type b
    ∧ get_database_type b = (if b then ("mongodb") else ("local_files")) := by
  cases b <;> cases pa <;> cases la <;> cases pa' <;> cases la' <;>
    cases k <;> cases k' <;>
    simp_all [get_database_service, get_database_type, serviceKindName]

/-- Witness for C3 at concrete inputs: with the sentinel present and
pymongo importable, the factory constructs the MongoDB service and
`get_database_type` agrees. -/
theorem backend_selection_deterministic_witness :
    ServiceKind.mongodb = ServiceKind.mongodb
    ∧ serviceKindName .mongodb = get_database_type true
    ∧ get_database_type true = (if true then ("mongodb") else ("local_files")) :=
  backend_selection_deterministic true true true true false .mongodb .mongodb
    rfl rfl

theorem fillDate_date (d : String) (r : NRec) :
    (fillDate d r).date = if r.date = some ("") then some d else r.date := by
  unfold fillDate
  split <;> rfl

theorem shapeZone_date (d : String) (z : NRec) :
    (shapeZone d z).date = if z.date = some ("") then some d else z.date := by
  unfold shapeZone
  simp only []
  split
  · split <;> simpa using fillDate_date d z
  · exact fillDate_date d z

/-- C4: during export shaping, in each of the four shaped sub-collections,
every record whose `date` field is the empty string is backfilled with the
run's processing date, and a record whose `date` is already non-empty
keeps its date unchanged (pointwise, via `DateShaped`). -/
theorem date_backfill (d : String) (ind : Indicators) :
    (∀ l l', ind.metrics = some l → (shapeIndicators d ind).metrics = some l' →
      List.Forall₂ (DateShaped d) l l')
    ∧ (∀ l l', ind.top_10_troncons = some l →
        (shapeIndicators d ind).top_10_troncons = some l' →
        List.Forall₂ (DateShaped d) l l')
    ∧ (∀ l l', ind.top_10_zones_congestionnees = some l →
        (shapeIndicators d ind).top_10_zones_congestionnees = some l' →
        List.Forall₂ (DateShaped d) l l')
    ∧ (∀ l l', ind.alertes_congestion = some l →
        (shapeIndicators d ind).alertes_congestion = some l' →
        List.Forall₂ (DateShaped d) l l') := by
  have hfill : ∀ l : List NRec, List.Forall₂ (DateShaped d) l (l.map (fillDate d)) := by
    intro l
    rw [List.forall₂_map_right_iff]
    exact List.forall₂_same.2 fun r _ => fillDate_date d r
  have hzone : ∀ l : List NRec, List.Forall₂ (DateShaped d) l (l.map (shapeZone d)) := by
    intro l
    rw [List.forall₂_map_right_iff]
    exact List.forall₂_same.2 fun r _ => shapeZone_date d r
  refine ⟨?_, ?_, ?_, ?_⟩ <;>
    · intro l l' hl hl'
      simp only [shapeIndicators, hl, Option.map_some] at hl'
      cases hl'
      first
      | exact hfill l
      | exact hzone l

/-- Witness for C4 at a concrete input: a collection with one empty-dated
record and one pre-dated record; after shaping the first carries the run
date and the second is untouched. -/
theorem date_backfill_witness :
    List.Forall₂ (DateShaped ("2025-11-04"))
      [{ date := some ("") : NRec }, { date := some ("2025-01-01") : NRec }]
      [{ date := some ("2025-11-04") : NRec }, { date := some ("2025-01-01") : NRec }] :=
  (date_backfill ("2025-11-04")
      { metrics := some [{ date := some ("") }, { date := some ("2025-01-01") }] }).1
    _ _ rfl rfl

/-- C5: for a congestion-zone record with a missing or falsy
`zone_fallback`: when `arrondissement` (defaulted to `"Unknown"` if
absent) is not `"Unknown"`, the shaped record's `zone_fallback` is
`"Arrondissement {arrondissement}"`, otherwise it is `"Unknown"`; a record
with a non-falsy `zone_fallback` keeps it unchanged. -/
theorem zone_fallback_synthesis (d : String) (z : NRec) :
    (falsyStr z.zone_fallback = true →
      (z.arrondissement.getD ("Unknown") ≠ "Unknown" →
        (shapeZone d z).zone_fallback =
          some ("Arrondissement " ++ z.arrondissement.getD ("Unknown")))
      ∧ (z.arrondissement.getD ("Unknown") = "Unknown" →
        (shapeZone d z).zone_fallback = some ("Unknown")))
    ∧ (falsyStr z.zone_fallback = false →
        (shapeZone d z).zone_fallback = z.zone_fallback) := by
  have hzf : (fillDate d z).zone_fallback = z.zone_fallback := by
    unfold fillDate
    split <;> rfl
  have hav : (fillDate d z).arrondissement = z.arrondissement := by
    unfold fillDate
    split <;> rfl
  constructor
  · intro hfalsy
    constructor
    · intro harr
      unfold shapeZone
      rw [if_pos (by rw [hzf]; exact hfalsy), if_pos (by rw [hav]; exact harr)]
      simp [hav]
    · intro harr
      unfold shapeZone
      rw [if_pos (by rw [hzf]; exact hfalsy), if_neg (by rw [hav]; simpa using harr)]
  · intro hfalsy
    unfold shapeZone
    rw [if_neg (by rw [hzf, hfalsy]; simp)]
    exact hzf

/-- Witness for C5 at concrete inputs: `{arrondissement: "12"}` gets
`zone_fallback = "Arrondissement 12"`, `{arrondissement: "Unknown"}` gets
`"Unknown"`, and a zone with `zone_fallback = "Rivoli"` keeps it. -/
theorem zone_fallback_synthesis_witness :
    (shapeZone ("2025-11-04") { arrondissement := some ("12") }).zone_fallback =
      some ("Arrondissement " ++ ({ arrondissement := some ("12") : NRec
        }).arrondissement.getD ("Unknown"))
    ∧ (shapeZone ("2025-11-04") { arrondissement := some ("Unknown") }).zone_fallback =
      some ("Unknown")
    ∧ (shapeZone ("2025-11-04") { zone_fallback := some ("Rivoli") }).zone_fallback =
      some ("Rivoli") :=
  ⟨((zone_fallback_synthesis ("2025-11-04") { arrondissement := some ("12") }).1
      (by decide)).1 (by decide),
   ((zone_fallback_synthesis ("2025-11-04") { arrondissement := some ("Unknown") }).1
      (by decide)).2 (by decide),
   (zone_fallback_synthesis ("2025-11-04") { zone_fallback := some ("Rivoli") }).2
      (by decide)⟩

/-- C2: for a successful processing result whose indicators the size
optimizer elects to trim, and outside a managed-cloud execution
environment, the export step sends the trimmed indicators to the selected
backend while the local backup file for that `(type, date)` receives the
full, untrimmed indicators — for every optimizer. -/
theorem optimizer_preserves_local_full_copy
    (shouldOpt : String → Indicators → Bool)
    (optimize : String → Indicators → Indicators)
    (t date : String) (result : ProcResult) (ind : Indicators)
    (hs : result.success = true) (hi : result.indicators = some ind)
    (hopt : shouldOpt t ind = true) :
    (exportOne shouldOpt optimize true false t date result).dbWrite =
      some (optimize t ind)
    ∧ (exportOne shouldOpt optimize true false t date result).localWrite =
      some (metricsFileName t date, ind) := by
  simp [exportOne, hs, hi, hopt]

/-- Witness for C2 at a concrete input: an optimizer that always trims the
`metrics` sub-collection; the backend receives the trimmed indicators, the
local backup keeps the full ones. -/
theorem optimizer_preserves_local_full_copy_witness :
    (exportOne (fun _ _ => true) (fun _ i => { i with metrics := none })
        true false ("traffic") "2025-11-04"
        { success := true, indicators := some { metrics := some [{ date := some ("") }] } }
      ).dbWrite =
      some ((fun (_ : String) (i : Indicators) => { i with metrics := none })
        "traffic" { metrics := some [{ date := some ("") }] })
    ∧ (exportOne (fun _ _ => true) (fun _ i => { i with metrics := none })
        true false ("traffic") "2025-11-04"
        { success := true, indicators := some { metrics := some [{ date := some ("") }] } }
      ).localWrite =
      some (metricsFileName ("traffic") "2025-11-04",
        { metrics := some [{ date := some ("") }] }) :=
  optimizer_preserves_local_full_copy (fun _ _ => true)
    (fun _ i => { i with metrics := none }) "traffic" "2025-11-04"
    { success := true, indicators := some { metrics := some [{ date := some ("") }] } }
    { metrics := some [{ date := some ("") }] } rfl rfl rfl

theorem upload_all_metrics_shift (putOk : DynamoItem → Bool) (now : String)
    (nowEpoch : Nat) (files : List UploadFile) (s f₀ : Nat) :
    files.foldl
      (fun acc f =>
        if upload_metrics_file putOk now nowEpoch f then (acc.1 + 1, acc.2)
        else (acc.1, acc.2 + 1))
      (s, f₀) =
    (s + (upload_all_metrics putOk now nowEpoch files).1,
     f₀ + (upload_all_metrics putOk now nowEpoch files).2) := by
  induction files generalizing s f₀ with
  | nil => simp [upload_all_metrics]
  | cons f rest ih =>
    rw [upload_all_metrics, List.foldl_cons, List.foldl_cons]
    by_cases h : upload_metrics_file putOk now nowEpoch f = true
    · rw [if_pos h, if_pos h, ih, ih]
      simp only [Prod.mk.injEq]
      omega
    · rw [if_neg h, if_neg h, ih, ih]
      simp only [Prod.mk.injEq]
      omega

/-- C9: in the manual sync tool, a malformed candidate file (missing
`metric_type`, `date` or `metrics`) is counted as one failure without
aborting the batch: the tallies of the files before and after it are
unaffected, and for every candidate list the returned tally satisfies
`success + failed = number of candidate files`. -/
theorem upload_failure_isolated_and_tallied (putOk : DynamoItem → Bool)
    (now : String) (nowEpoch : Nat) (pre post : List UploadFile)
    (bad : UploadFile) (hbad : malformedUpload bad = true) :
    (upload_all_metrics putOk now nowEpoch (pre ++ bad :: post)).1 =
      (upload_all_metrics putOk now nowEpoch pre).1 +
      (upload_all_metrics putOk now nowEpoch post).1
    ∧ (upload_all_metrics putOk now nowEpoch (pre ++ bad :: post)).2 =
      (upload_all_metrics putOk now nowEpoch pre).2 +
      (upload_all_metrics putOk now nowEpoch post).2 + 1
    ∧ ∀ files : List UploadFile,
        (upload_all_metrics putOk now nowEpoch files).1 +
        (upload_all_metrics putOk now nowEpoch files).2 = files.length := by
  have hfail : upload_metrics_file putOk now nowEpoch bad = false := by
    rw [upload_metrics_file, if_pos hbad]
  have hsum : ∀ files : List UploadFile,
      (upload_all_metrics putOk now nowEpoch files).1 +
      (upload_all_metrics putOk now nowEpoch files).2 = files.length := by
    intro files
    induction files with
    | nil => rfl
    | cons f rest ih =>
      rw [upload_all_metrics, List.foldl_cons]
      by_cases h : upload_metrics_file putOk now nowEpoch f = true
      · rw [if_pos h, upload_all_metrics_shift]
        simp only [List.length_cons]
        omega
      · rw [if_neg h, upload_all_metrics_shift]
        simp only [List.length_cons]
        omega
  have hsplit :
      upload_all_metrics putOk now nowEpoch (pre ++ bad :: post) =
      ((upload_all_metrics putOk now nowEpoch pre).1 +
        (upload_all_metrics putOk now nowEpoch post).1,
       (upload_all_metrics putOk now nowEpoch pre).2 + 1 +
        (upload_all_metrics putOk now nowEpoch post).2) := by
    rw [upload_all_metrics, List.foldl_append]
    rw [upload_all_metrics_shift putOk now nowEpoch pre 0 0]
    rw [List.foldl_cons, hfail]
    simp only [Bool.false_eq_true, if_false, Nat.zero_add]
    rw [upload_all_metrics_shift]
  refine ⟨?_, ?_, hsum⟩
  · rw [hsplit]
  · rw [hsplit]
    simp only [Prod.mk.injEq]
    omega

/-- Witness for C9 at a concrete input: a batch of one good file, one file
missing its `date`, and one good file; both good files are uploaded, the
malformed one is counted as the single failure, and the tally sums to the
batch size. -/
theorem upload_failure_isolated_and_tallied_witness :
    (upload_all_metrics (fun _ => true) "2025-11-04T09:00:00" 1000
        ([{ metric_type := some ("bikes"), date := some ("2025-11-04"),
            metrics := some [("total", 3)] }] ++
          { metric_type := some ("traffic"), metrics := some [("total", 1)] } ::
          [{ metric_type := some ("weather"), date := some ("2025-11-04"),
             metrics := some [("avg", 9)] }])).1 =
      (upload_all_metrics (fun _ => true) "2025-11-04T09:00:00" 1000
        [{ metric_type := some ("bikes"), date := some ("2025-11-04"),
           metrics := some [("total", 3)] }]).1 +
      (upload_all_metrics (fun _ => true) "2025-11-04T09:00:00" 1000
        [{ metric_type := some ("weather"), date := some ("2025-11-04"),
           metrics := some [("avg", 9)] }]).1
    ∧ (upload_all_metrics (fun _ => true) "2025-11-04T09:00:00" 1000
        ([{ metric_type := some ("bikes"), date := some ("2025-11-04"),
            metrics := some [("total", 3)] }] ++
          { metric_type := some ("traffic"), metrics := some [("total", 1)] } ::
          [{ metric_type := some ("weather"), date := some ("2025-11-04"),
             metrics := some [("avg", 9)] }])).2 =
      (upload_all_metrics (fun _ => true) "2025-11-04T09:00:00" 1000
        [{ metric_type := some ("bikes"), date := some ("2025-11-04"),
           metrics := some [("total", 3)] }]).2 +
      (upload_all_metrics (fun _ => true) "2025-11-04T09:00:00" 1000
        [{ metric_type := some ("weather"), date := some ("2025-11-04"),
           metrics := some [("avg", 9)] }]).2 + 1
    ∧ ∀ files : List UploadFile,
        (upload_all_metrics (fun _ => true) "2025-11-04T09:00:00" 1000 files).1 +
        (upload_all_metrics (fun _ => true) "2025-11-04T09:00:00" 1000 files).2 =
        files.length :=
  upload_failure_isolated_and_tallied (fun _ => true) "2025-11-04T09:00:00" 1000
    [{ metric_type := some ("bikes"), date := some ("2025-11-04"),
       metrics := some [("total", 3)] }]
    [{ metric_type := some ("weather"), date := some ("2025-11-04"),
       metrics := some [("avg", 9)] }]
    { metric_type := some ("traffic"), metrics := some [("total", 1)] }
    rfl

theorem asString_data (s : String) : List.asString s.data = s := rfl

theorem data_inj {a b : String} (h : a.data = b.data) : a = b := by
  rw [← asString_data a, ← asString_data b, h]

theorem metricsFileName_mk (t d : String) :
    metricsFileName t d
      = List.asString ((t.data ++ "_metrics_".data ++ d.data) ++ ".json".data) := by
  apply data_inj
  simp [metricsFileName, List.asString]

theorem stemOf_asString_json (l : List Char) :
    stemOf (List.asString (l ++ ".json".data)) = List.asString l := by
  have h5 : (".json".data).length = 5 := rfl
  show List.asString ((l ++ ".json".data).take ((l ++ ".json".data).length - 5))
      = List.asString l
  rw [List.length_append, h5, Nat.add_sub_cancel, List.take_left]

theorem pySplit_format (t d : String) (ht : '_' ∉ t.data) (hd : '_' ∉ d.data) :
    pySplit '_' (List.asString (t.data ++ "_metrics_".data ++ d.data))
      = [t, "metrics", d] := by
  have hre : t.data ++ "_metrics_".data ++ d.data
      = t.data ++ '_' :: ("metrics".data ++ '_' :: d.data) := by
    rw [show ("_metrics_").data = '_' :: ("metrics".data ++ ['_']) from rfl]
    simp
  have hpt : ∀ x ∈ t.data, ¬((fun c => c == '_') x = true) := by
    intro x hx hb
    rw [beq_iff_eq] at hb
    exact ht (hb ▸ hx)
  have hpm : ∀ x ∈ "metrics".data, ¬((fun c => c == '_') x = true) := by
    decide
  have hpd : ∀ x ∈ d.data, ¬((fun c => c == '_') x = true) := by
    intro x hx hb
    rw [beq_iff_eq] at hb
    exact hd (hb ▸ hx)
  have h1 : (t.data ++ '_' :: ("metrics".data ++ '_' :: d.data)).splitOnP
      (fun c => c == '_')
      = t.data :: (("metrics".data ++ '_' :: d.data).splitOnP (fun c => c == '_')) :=
    List.splitOnP_first _ _ hpt '_' (by decide) _
  have h2 : ("metrics".data ++ '_' :: d.data).splitOnP (fun c => c == '_')
      = "metrics".data :: (d.data.splitOnP (fun c => c == '_')) :=
    List.splitOnP_first _ _ hpm '_' (by decide) _
  have h3 : d.data.splitOnP (fun c => c == '_') = [d.data] :=
    List.splitOnP_eq_single _ _ hpd
  show ((List.asString (t.data ++ "_metrics_".data ++ d.data)).data.splitOnP
      (fun c => c == '_')).map List.asString = [t, "metrics", d]
  rw [show (List.asString (t.data ++ "_metrics_".data ++ d.data)).data
      = t.data ++ '_' :: ("metrics".data ++ '_' :: d.data) from hre]
  rw [h1, h2, h3]
  simp only [List.map_cons, List.map_nil, asString_data]
  rfl

/-- Parsing inverts formatting: the filename written by `save_metrics` for
an underscore-free data type and date parses back to that date. -/
theorem parseFileDate_metricsFileName (t d : String)
    (ht : '_' ∉ t.data) (hd : '_' ∉ d.data) :
    parseFileDate (metricsFileName t d) = some d := by
  unfold parseFileDate
  rw [metricsFileName_mk, stemOf_asString_json, pySplit_format t d ht hd]
  rfl

theorem append_cons_prefix_inj {c : Char} :
    ∀ (A B R S : List Char), c ∉ A → c ∉ B →
      (A ++ c :: R) <+: (B ++ c :: S) → A = B := by
  intro A
  induction A with
  | nil =>
    intro B R S _ hB h
    cases B with
    | nil => rfl
    | cons b B' =>
      rw [List.nil_append, List.cons_append] at h
      rcases List.cons_prefix_cons.mp h with ⟨hcb, -⟩
      exact absurd (hcb ▸ List.mem_cons_self b B') hB
  | cons a A' ih =>
    intro B R S hA hB h
    cases B with
    | nil =>
      rw [List.nil_append, List.cons_append] at h
      rcases List.cons_prefix_cons.mp h with ⟨hac, -⟩
      exact absurd (hac ▸ List.mem_cons_self a A') hA
    | cons b B' =>
      rw [List.cons_append, List.cons_append] at h
      rcases List.cons_prefix_cons.mp h with ⟨hab, h'⟩
      rw [hab, ih B' R S (fun hc => hA (List.mem_cons_of_mem _ hc))
        (fun hc => hB (List.mem_cons_of_mem _ hc)) h']

/-- A well-formed filename `t'_metrics_d'.json` matches the glob for the
queried type `t` only when `t = t'` (both underscore-free). -/
theorem globMetricsMatch_filename (t t' d' : String) (ht : '_' ∉ t.data)
    (ht' : '_' ∉ t'.data)
    (h : globMetricsMatch t (metricsFileName t' d') = true) : t = t' := by
  have hpre : ((t ++ "_metrics_").data) <+: (metricsFileName t' d').data := by
    rw [globMetricsMatch, Bool.and_eq_true, Bool.and_eq_true] at h
    exact List.isPrefixOf_iff_prefix.mp h.1.1
  have hlit : "_metrics_".data = '_' :: "metrics_".data := rfl
  have hshape : (t ++ "_metrics_").data = t.data ++ '_' :: "metrics_".data := by
    rw [String.data_append, hlit]
  have hshape' : (metricsFileName t' d').data
      = t'.data ++ '_' :: ("metrics_".data ++ (d'.data ++ ".json".data)) := by
    rw [metricsFileName_mk]
    show (t'.data ++ "_metrics_".data ++ d'.data) ++ ".json".data = _
    rw [hlit]
    simp
  rw [hshape, hshape'] at hpre
  exact data_inj (append_cons_prefix_inj t.data t'.data _ _ ht ht' hpre)

/-- C6: on a directory whose files were produced by `save_metrics`, the
range query returns a sequence sorted ascending by date in which every
entry's date lies within `[start_date, end_date]`, and it returns the
empty sequence (not an error) when no stored file passes the match. -/
theorem query_range_sorted_bounded (dir : Dir α) (t start_date end_date : String)
    (hwf : ∀ p ∈ dir, SavedShape p) :
    List.Sorted (fun a b : QueryEntry α => a.date ≤ b.date)
      (query_metrics_by_date_range dir t start_date end_date)
    ∧ (∀ e ∈ query_metrics_by_date_range dir t start_date end_date,
        start_date ≤ e.date ∧ e.date ≤ end_date)
    ∧ ((∀ p ∈ dir, queryStep t start_date end_date p = (none : Option (QueryEntry α))) →
        query_metrics_by_date_range dir t start_date end_date = []) := by
  refine ⟨List.sorted_insertionSort _ _, ?_, ?_⟩
  · intro e he
    rw [query_metrics_by_date_range, sortEntries, List.mem_insertionSort] at he
    rcases List.mem_filterMap.mp he with ⟨p, hp, hstep⟩
    rcases hwf p hp with ⟨t', d', hname, hdate, ht', hd'⟩
    rw [queryStep] at hstep
    by_cases hg : globMetricsMatch t p.1 = true
    · rw [if_pos hg] at hstep
      have hparse : parseFileDate p.1 = some d' := by
        rw [hname]
        exact parseFileDate_metricsFileName t' d' ht' hd'
      rw [hparse] at hstep
      have hstep' : (if start_date ≤ d' ∧ d' ≤ end_date then
          some ({ date := p.2.date.getD d', metrics := p.2.metrics } : QueryEntry α)
          else none) = some e := hstep
      by_cases hr : start_date ≤ d' ∧ d' ≤ end_date
      · rw [if_pos hr] at hstep'
        injection hstep' with h2
        subst h2
        simpa [hdate] using hr
      · rw [if_neg hr] at hstep'
        exact absurd hstep' (by simp)
    · rw [if_neg hg] at hstep
      exact absurd hstep (by simp)
  · intro hnone
    rw [query_metrics_by_date_range, List.filterMap_eq_nil_iff.mpr hnone]
    rfl

/-- Witness for C6 at a concrete input: two weather files saved for
2025-11-01 and 2025-11-03, queried over [2025-11-01, 2025-11-05]. -/
theorem query_range_sorted_bounded_witness :
    List.Sorted (fun a b : QueryEntry Nat => a.date ≤ b.date)
      (query_metrics_by_date_range
        [(metricsFileName ("weather") "2025-11-03",
          { date := some ("2025-11-03"), metrics := some 3 }),
         (metricsFileName ("weather") "2025-11-01",
          { date := some ("2025-11-01"), metrics := some 1 })]
        "weather" "2025-11-01" "2025-11-05")
    ∧ (∀ e ∈ query_metrics_by_date_range
        [(metricsFileName ("weather") "2025-11-03",
          { date := some ("2025-11-03"), metrics := some 3 }),
         (metricsFileName ("weather") "2025-11-01",
          { date := some ("2025-11-01"), metrics := some 1 })]
        "weather" "2025-11-01" "2025-11-05",
        "2025-11-01" ≤ e.date ∧ e.date ≤ "2025-11-05")
    ∧ ((∀ p ∈ [(metricsFileName ("weather") "2025-11-03",
          ({ date := some ("2025-11-03"), metrics := some 3 } : FileData Nat)),
         (metricsFileName ("weather") "2025-11-01",
          { date := some ("2025-11-01"), metrics := some 1 })],
        queryStep ("weather") "2025-11-01" "2025-11-05" p = (none : Option (QueryEntry Nat))) →
        query_metrics_by_date_range
          [(metricsFileName ("weather") "2025-11-03",
            { date := some ("2025-11-03"), metrics := some 3 }),
           (metricsFileName ("weather") "2025-11-01",
            { date := some ("2025-11-01"), metrics := some 1 })]
          "weather" "2025-11-01" "2025-11-05" = []) :=
  query_range_sorted_bounded _ ("weather") "2025-11-01" "2025-11-05"
    (by
      intro p hp
      rcases List.mem_cons.mp hp with rfl | hp'
      · exact ⟨"weather", "2025-11-03", rfl, rfl, by decide, by decide⟩
      rcases List.mem_cons.mp hp' with rfl | hp''
      · exact ⟨"weather", "2025-11-01", rfl, rfl, by decide, by decide⟩
      · exact absurd hp'' (List.not_mem_nil _))

/-- C7: on a directory whose files were produced by `save_metrics` (no two
files share a name), the listed dates for an underscore-free data type are
sorted ascending and contain no duplicates, and they are exactly the dates
parsed from the glob-matched stored filenames. -/
theorem list_available_dates_sorted_nodup (dir : Dir α) (t : String)
    (hwf : ∀ p ∈ dir, SavedShape p)
    (hkeys : (dir.map Prod.fst).Nodup)
    (ht : '_' ∉ t.data) :
    List.Sorted (fun a b : String => a ≤ b) (list_available_dates dir t)
    ∧ (list_available_dates dir t).Nodup
    ∧ (∀ d', d' ∈ list_available_dates dir t ↔
        ∃ p ∈ dir, globMetricsMatch t p.1 = true ∧ parseFileDate p.1 = some d') := by
  have hkey : ∀ q : String × FileData α, SavedShape q → ∀ d₀ : String,
      (if globMetricsMatch t q.1 then parseFileDate q.1 else none) = some d₀ →
      q.1 = metricsFileName t d₀ := by
    intro q hq d₀ hstep
    rcases hq with ⟨t', d', hname, -, ht', hd'⟩
    by_cases hg : globMetricsMatch t q.1 = true
    · rw [if_pos hg] at hstep
      have hteq : t = t' := globMetricsMatch_filename t t' d' ht ht' (hname ▸ hg)
      have hparse : parseFileDate q.1 = some d' := by
        rw [hname]
        exact parseFileDate_metricsFileName t' d' ht' hd'
      rw [hparse] at hstep
      injection hstep with h2
      rw [hname, hteq, h2]
    · rw [if_neg hg] at hstep
      exact absurd hstep (by simp)
  have hnodup : ∀ l : Dir α, (∀ p ∈ l, SavedShape p) → (l.map Prod.fst).Nodup →
      (l.filterMap (fun p =>
        if globMetricsMatch t p.1 then parseFileDate p.1 else none)).Nodup := by
    intro l
    induction l with
    | nil =>
      intro _ _
      simp
    | cons p rest ih =>
      intro hwf' hkeys'
      have hwfp : SavedShape p := hwf' p (List.mem_cons_self p rest)
      have hwfrest : ∀ q ∈ rest, SavedShape q :=
        fun q hq => hwf' q (List.mem_cons_of_mem p hq)
      rw [List.map_cons, List.nodup_cons] at hkeys'
      cases hstep : (if globMetricsMatch t p.1 then parseFileDate p.1 else none) with
      | none =>
        have hcons : (p :: rest).filterMap (fun p =>
            if globMetricsMatch t p.1 then parseFileDate p.1 else none)
            = rest.filterMap (fun p =>
              if globMetricsMatch t p.1 then parseFileDate p.1 else none) :=
          List.filterMap_cons_none hstep
        rw [hcons]
        exact ih hwfrest hkeys'.2
      | some d₀ =>
        have hcons : (p :: rest).filterMap (fun p =>
            if globMetricsMatch t p.1 then parseFileDate p.1 else none)
            = d₀ :: rest.filterMap (fun p =>
              if globMetricsMatch t p.1 then parseFileDate p.1 else none) :=
          List.filterMap_cons_some hstep
        rw [hcons]
        rw [List.nodup_cons]
        refine ⟨?_, ih hwfrest hkeys'.2⟩
        intro hmem
        rcases List.mem_filterMap.mp hmem with ⟨q, hq, hq2⟩
        exact hkeys'.1 (by
          rw [hkey p hwfp d₀ hstep, ← hkey q (hwfrest q hq) d₀ hq2]
          exact List.mem_map_of_mem Prod.fst hq)
  refine ⟨List.sorted_insertionSort _ _, ?_, ?_⟩
  · exact (List.perm_insertionSort _ _).nodup_iff.mpr (hnodup dir hwf hkeys)
  · intro d'
    rw [list_available_dates, List.mem_insertionSort, List.mem_filterMap]
    constructor
    · rintro ⟨p, hp, hstep⟩
      by_cases hg : globMetricsMatch t p.1 = true
      · rw [if_pos hg] at hstep
        exact ⟨p, hp, hg, hstep⟩
      · rw [if_neg hg] at hstep
        exact absurd hstep (by simp)
    · rintro ⟨p, hp, hg, hparse⟩
      exact ⟨p, hp, by rw [if_pos hg]; exact hparse⟩

/-- Witness for C7 at a concrete input: two saved bikes files give the
sorted duplicate-free date list with the expected membership. -/
theorem list_available_dates_sorted_nodup_witness :
    List.Sorted (fun a b : String => a ≤ b)
      (list_available_dates
        [(metricsFileName ("bikes") "2025-11-04",
          ({ date := some ("2025-11-04"), metrics := some 4 } : FileData Nat)),
         (metricsFileName ("bikes") "2025-11-02",
          { date := some ("2025-11-02"), metrics := some 2 })] "bikes")
    ∧ (list_available_dates
        [(metricsFileName ("bikes") "2025-11-04",
          ({ date := some ("2025-11-04"), metrics := some 4 } : FileData Nat)),
         (metricsFileName ("bikes") "2025-11-02",
          { date := some ("2025-11-02"), metrics := some 2 })] "bikes").Nodup
    ∧ (∀ d', d' ∈ list_available_dates
        [(metricsFileName ("bikes") "2025-11-04",
          ({ date := some ("2025-11-04"), metrics := some 4 } : FileData Nat)),
         (metricsFileName ("bikes") "2025-11-02",
          { date := some ("2025-11-02"), metrics := some 2 })] "bikes" ↔
        ∃ p ∈ [(metricsFileName ("bikes") "2025-11-04",
          ({ date := some ("2025-11-04"), metrics := some 4 } : FileData Nat)),
         (metricsFileName ("bikes") "2025-11-02",
          { date := some ("2025-11-02"), metrics := some 2 })],
          globMetricsMatch ("bikes") p.1 = true ∧ parseFileDate p.1 = some d') :=
  list_available_dates_sorted_nodup _ ("bikes")
    (by
      intro p hp
      rcases List.mem_cons.mp hp with rfl | hp'
      · exact ⟨"bikes", "2025-11-04", rfl, rfl, by decide, by decide⟩
      rcases List.mem_cons.mp hp' with rfl | hp''
      · exact ⟨"bikes", "2025-11-02", rfl, rfl, by decide, by decide⟩
      · exact absurd hp'' (List.not_mem_nil _))
    (by decide)
    (by decide)

/-- C10: `query_metrics_by_date_range` decides inclusion of a stored file
on the date parsed from the filename's trailing underscore-delimited
segment, while the returned entry carries the record's internal `date`
value when present (`data.get("date", file_date)`); so a file whose
internal date differs from its filename date is selected by the filename
date yet reported under the internal date, which may lie outside the
queried range. -/
theorem query_selects_on_filename_date_reports_internal_date
    (t start_date end_date f fd : String) (data : FileData α)
    (hg : globMetricsMatch t f = true) (hp : parseFileDate f = some fd) :
    query_metrics_by_date_range [(f, data)] t start_date end_date =
      if start_date ≤ fd ∧ fd ≤ end_date then
        [{ date := data.date.getD fd, metrics := data.metrics }]
      else [] := by
  have hstep : queryStep t start_date end_date (f, data) =
      if start_date ≤ fd ∧ fd ≤ end_date then
        some { date := data.date.getD fd, metrics := data.metrics }
      else none := by
    simp only [queryStep, hg, hp, if_true, ite_true]
  by_cases hr : start_date ≤ fd ∧ fd ≤ end_date
  · rw [if_pos hr] at hstep ⊢
    have hfm : List.filterMap (queryStep t start_date end_date) [(f, data)]
        = [{ date := data.date.getD fd, metrics := data.metrics }] :=
      List.filterMap_cons_some hstep
    rw [query_metrics_by_date_range, hfm]
    rfl
  · rw [if_neg hr] at hstep ⊢
    have hfm : List.filterMap (queryStep t start_date end_date) [(f, data)]
        = [] :=
      List.filterMap_cons_none hstep
    rw [query_metrics_by_date_range, hfm]
    rfl

/-- Witness for C10 at a concrete input: a file named
`bikes_metrics_2025-11-03.json` whose stored record carries the internal
date `2030-01-01`; the query over [2025-11-01, 2025-11-05] selects it by
the filename date and returns it under the internal date, which lies
outside the queried range. -/
theorem query_selects_on_filename_date_reports_internal_date_witness :
    query_metrics_by_date_range
        [("bikes_metrics_2025-11-03.json",
          ({ date := some ("2030-01-01"), metrics := some 7 } : FileData Nat))]
        "bikes" "2025-11-01" "2025-11-05"
      = [{ date := "2030-01-01", metrics := some 7 }]
    ∧ ¬("2025-11-01" ≤ "2030-01-01" ∧ ("2030-01-01" : String) ≤ "2025-11-05") := by
  constructor
  · rw [query_selects_on_filename_date_reports_internal_date ("bikes") "2025-11-01"
      "2025-11-05" "bikes_metrics_2025-11-03.json" "2025-11-03"
      { date := some ("2030-01-01"), metrics := some 7 } (by decide) (by decide)]
    rw [if_pos ⟨by rw [String.le_iff_toList_le]; decide,
      by rw [String.le_iff_toList_le]; decide⟩]
    rfl
  · intro h
    have h2 := h.2
    rw [String.le_iff_toList_le] at h2
    exact absurd h2 (by decide)


end CityFlow
